import Mathlib

/-!
Verification of the journaling application (`src/journal_app.py`).

The development shallowly embeds the two specified components:

* the storage collaborator `JournalDatabase` (an SQLite wrapper around a
  single `entries` table with an autoincrementing integer primary key), and
* the pure advice function `generate_advice`.

The GUI layer is thin wiring and is not modelled.
-/

/-- One row of the `entries` table: columns
`(id, date, mood, q1, q2, q3, advice)` as created by
`JournalDatabase.create_table` in the source. -/
structure Entry where
  id : Nat
  date : String
  mood : String
  q1 : String
  q2 : String
  q3 : String
  advice : String
  deriving DecidableEq

/-- State of the SQLite database behind `JournalDatabase`: the rows of the
`entries` table in insertion order, together with the autoincrement
sequence value (the largest rowid handed out so far; SQLite`s AUTOINCREMENT
assigns `seq + 1` to the next insert and never reuses an id). -/
structure JournalDatabase where
  entries : List Entry
  seq : Nat
  deriving DecidableEq

/-- A freshly created database: `__init__` connects and creates the (empty)
table, so there are no rows and no rowid has been handed out. -/
def JournalDatabase.init : JournalDatabase :=
  { entries := [], seq := 0 }

/-- `create_table` runs `CREATE TABLE IF NOT EXISTS`: on a database whose
table already exists (every state of this model) it changes nothing. -/
def JournalDatabase.create_table (db : JournalDatabase) : JournalDatabase :=
  db

/-- `add_entry(self, date, mood, q1, q2, q3, advice)`: INSERTs a new row,
letting AUTOINCREMENT assign the fresh id `seq + 1`, and commits.  The
second component of the result is the Python method`s return value: the
method body has no `return` statement, so it always returns `None`
(modelled as `none`); in particular the new rowid is assigned but not
returned to the caller. -/
def JournalDatabase.add_entry (db : JournalDatabase)
    (date mood q1 q2 q3 advice : String) : JournalDatabase × Option Nat :=
  let newId := db.seq + 1
  ({ entries := db.entries ++
      [{ id := newId, date := date, mood := mood,
         q1 := q1, q2 := q2, q3 := q3, advice := advice }],
     seq := newId }, none)

/-- The `ORDER BY id DESC` ordering used by `get_all_entries`: row `a` comes
no later than row `b` when `a`'s id is at least `b`'s id. -/
def idDesc (a b : Nat × String × String) : Prop :=
  b.1 ≤ a.1

instance : DecidableRel idDesc :=
  fun a b => Nat.decLe b.1 a.1

instance : IsTotal (Nat × String × String) idDesc :=
  ⟨fun a b => Nat.le_total b.1 a.1⟩

instance : IsTrans (Nat × String × String) idDesc :=
  ⟨fun _ _ _ h1 h2 => Nat.le_trans h2 h1⟩

/-- `get_all_entries(self)`: `SELECT id, date, mood FROM entries ORDER BY
id DESC` — the `(id, date, mood)` projection of every row, sorted by id
descending. -/
def JournalDatabase.get_all_entries (db : JournalDatabase) :
    List (Nat × String × String) :=
  List.insertionSort idDesc (db.entries.map fun e => (e.id, e.date, e.mood))

/-- `get_entry(self, entry_id)`: `SELECT * FROM entries WHERE id = ?`
followed by `fetchone()`, which yields the first matching row, or `None`
(modelled as `none`) when no row has that id. -/
def JournalDatabase.get_entry (db : JournalDatabase) (entry_id : Nat) :
    Option Entry :=
  db.entries.find? fun e => e.id == entry_id

/-- The operations the store exposes to the presentation layer.  `append`
carries the six column values; the two reads carry their arguments but do
not change the state; `createTable` re-runs the idempotent table
creation done on startup. -/
inductive StoreOp where
  | append (date mood q1 q2 q3 advice : String)
  | listSummaries
  | get (entry_id : Nat)
  | createTable

/-- Effect of one store operation on the database state.  `SELECT`s do not
modify the database, and `CREATE TABLE IF NOT EXISTS` is the identity on a
state whose table exists. -/
def applyOp (db : JournalDatabase) : StoreOp → JournalDatabase
  | .append d m a1 a2 a3 adv => (db.add_entry d m a1 a2 a3 adv).1
  | .listSummaries => db
  | .get _ => db
  | .createTable => db.create_table

/-- The store state reached from a fresh database by a sequence of exposed
operations. -/
def runOps (ops : List StoreOp) : JournalDatabase :=
  ops.foldl applyOp JournalDatabase.init

/-- Well-formedness of a database state: row ids strictly increase in
insertion order, and no row carries an id beyond the autoincrement
sequence value. -/
def WF (db : JournalDatabase) : Prop :=
  db.entries.Pairwise (fun a b => a.id < b.id) ∧ ∀ e ∈ db.entries, e.id ≤ db.seq

/-- Contiguous-substring test on lists of characters, the semantics of
Python`s `needle in haystack` on strings: the needle occurs (as a
contiguous run) somewhere in the haystack. -/
def hasSubList (needle : List Char) : List Char → Bool
  | [] => needle.isPrefixOf []
  | c :: rest => needle.isPrefixOf (c :: rest) || hasSubList needle rest

/-- Python`s `needle in haystack` on strings. -/
def strContains (haystack needle : String) : Bool :=
  hasSubList needle.data haystack.data

/-- Python`s `text.lower()`: character-wise lowercasing of the string (the
keywords being tested are ASCII, where this coincides with Python`s
Unicode lowercasing). -/
def toLowerStr (s : String) : String :=
  ⟨s.data.map Char.toLower⟩

/-- Base message for mood "Very Happy". -/
def veryHappyMsg : String :=
  "You seem to be in a really good place today. Take a moment to appreciate what’s going well and think about how you can keep that going."

/-- Base message for mood "Happy". -/
def happyMsg : String :=
  "You’re feeling pretty good today. Try to note the small things that made you feel this way so you can revisit them on tougher days."

/-- Base message for mood "Neutral". -/
def neutralMsg : String :=
  "You’re feeling neutral. That’s okay. Maybe pick one small thing you’re grateful for or something you’re looking forward to."

/-- Base message for mood "Sad". -/
def sadMsg : String :=
  "You’re feeling sad today. Be gentle with yourself—try to do one kind thing for yourself and maybe reach out to someone you trust."

/-- Base message for mood "Very Sad". -/
def verySadMsg : String :=
  "You’re really down right now. It might help to talk to a close friend, family member, or a professional. You don’t have to carry everything alone."

/-- Base message for mood "Stressed". -/
def stressedMsg : String :=
  "You’re feeling stressed. Try to break your tasks into smaller steps, and give yourself permission to rest between them."

/-- Base message for mood "Anxious". -/
def anxiousMsg : String :=
  "You’re feeling anxious. Slow, deep breaths and grounding yourself in the present moment can help. Focus on what you can control right now."

/-- Base message for the "Not specified" sentinel, also used as the
fallback for any unrecognized mood string. -/
def notSpecifiedMsg : String :=
  "You didn’t choose a mood, but your writing still matters. You’re taking time to understand yourself—that’s already a big step."

/-- The `mood_based` dictionary of `generate_advice`, as an association
list in declaration order. -/
def mood_based : List (String × String) :=
  [("Very Happy", veryHappyMsg),
   ("Happy", happyMsg),
   ("Neutral", neutralMsg),
   ("Sad", sadMsg),
   ("Very Sad", verySadMsg),
   ("Stressed", stressedMsg),
   ("Anxious", anxiousMsg),
   ("Not specified", notSpecifiedMsg)]

/-- `mood_based.get(mood, mood_based["Not specified"])`: total lookup with
the "Not specified" message as the fallback. -/
def baseMessage (mood : String) : String :=
  (List.lookup mood mood_based).getD notSpecifiedMsg

/-- Supplementary paragraph appended for the tiredness keyword group,
including the blank-line separator the source prepends with `+=`. -/
def tiredPara : String :=
  "\n\nYou mentioned feeling tired. Try to prioritize rest tonight, even if it’s just going to bed a bit earlier or taking a short break."

/-- Supplementary paragraph for the overwhelm keyword group. -/
def overwhelmedPara : String :=
  "\n\nFeeling overwhelmed is a signal to slow down. Break things into tiny steps and tackle them one at a time."

/-- Supplementary paragraph for the loneliness keyword group. -/
def alonePara : String :=
  "\n\nYou also mentioned feeling alone. Consider reaching out to someone you trust or doing something comforting that makes you feel connected."

/-- Supplementary paragraph for the pride keyword group. -/
def proudPara : String :=
  "\n\nYou noticed something you’re proud of—celebrate that! Acknowledge your progress instead of skipping past it."

/-- Test for the tiredness keyword group: `"tired" in text_lower or
"exhausted" in text_lower`. -/
def tiredHit (text_lower : String) : Bool :=
  strContains text_lower "tired" || strContains text_lower "exhausted"

/-- Test for the overwhelm keyword group: `"overwhelmed" in text_lower or
"too much" in text_lower`. -/
def overwhelmedHit (text_lower : String) : Bool :=
  strContains text_lower "overwhelmed" || strContains text_lower "too much"

/-- Test for the loneliness keyword group: `"lonely" in text_lower or
"alone" in text_lower`. -/
def aloneHit (text_lower : String) : Bool :=
  strContains text_lower "lonely" || strContains text_lower "alone"

/-- Test for the pride keyword group: `"proud" in text_lower or
"accomplished" in text_lower`. -/
def proudHit (text_lower : String) : Bool :=
  strContains text_lower "proud" || strContains text_lower "accomplished"

/-- `generate_advice(mood, text)`: lowercase the text, look up the base
message by mood with the "Not specified" fallback, then append the four
supplementary paragraphs in declaration order (tiredness, overwhelm,
loneliness, pride) whenever the corresponding keyword test fires. -/
def generate_advice (mood text : String) : String :=
  let text_lower := toLowerStr text
  let advice := baseMessage mood
  let advice := if tiredHit text_lower then advice ++ tiredPara else advice
  let advice := if overwhelmedHit text_lower then advice ++ overwhelmedPara else advice
  let advice := if aloneHit text_lower then advice ++ alonePara else advice
  let advice := if proudHit text_lower then advice ++ proudPara else advice
  advice

/-- Optional tiredness suffix contributed to the advice text. -/
def tiredOpt (text : String) : String :=
  if tiredHit (toLowerStr text) then tiredPara else ""

/-- Optional overwhelm suffix contributed to the advice text. -/
def overwhelmedOpt (text : String) : String :=
  if overwhelmedHit (toLowerStr text) then overwhelmedPara else ""

/-- Optional loneliness suffix contributed to the advice text. -/
def aloneOpt (text : String) : String :=
  if aloneHit (toLowerStr text) then alonePara else ""

/-- Optional pride suffix contributed to the advice text. -/
def proudOpt (text : String) : String :=
  if proudHit (toLowerStr text) then proudPara else ""

/-- The seven selectable mood labels offered by the mood combobox. -/
def mood_options : List String :=
  ["Very Happy", "Happy", "Neutral", "Sad", "Very Sad", "Stressed", "Anxious"]

/-- The keys of the `mood_based` table: the seven selectable moods plus the
"Not specified" sentinel. -/
def allMoodKeys : List String :=
  mood_options ++ ["Not specified"]

/-- Characterization of the list-level substring test: the needle occurs
contiguously in the haystack exactly when the haystack splits around it. -/
theorem hasSubList_iff (needle hay : List Char) :
    hasSubList needle hay = true ↔ ∃ pre post, hay = pre ++ needle ++ post := by
  induction hay with
  | nil =>
    constructor
    · intro h
      obtain ⟨t, ht⟩ := List.isPrefixOf_iff_prefix.mp h
      obtain ⟨h1, h2⟩ := List.append_eq_nil.mp ht
      exact ⟨[], [], by simp [h1]⟩
    · rintro ⟨pre, post, h⟩
      obtain ⟨h1, h2⟩ := List.append_eq_nil.mp h.symm
      obtain ⟨h3, h4⟩ := List.append_eq_nil.mp h1
      simp [hasSubList, h4]
  | cons c rest ih =>
    constructor
    · intro h
      rcases Bool.or_eq_true_iff.mp h with hpre | htail
      · obtain ⟨t, ht⟩ := List.isPrefixOf_iff_prefix.mp hpre
        exact ⟨[], t, by simpa using ht.symm⟩
      · obtain ⟨p, s, hps⟩ := ih.mp htail
        exact ⟨c :: p, s, by simp [hps]⟩
    · rintro ⟨pre, post, h⟩
      cases pre with
      | nil =>
        simp only [List.nil_append] at h
        have hp : needle <+: c :: rest := ⟨post, h.symm⟩
        simp [hasSubList, List.isPrefixOf_iff_prefix.mpr hp]
      | cons p ps =>
        rw [List.cons_append, List.cons_append] at h
        injection h with h1 h2
        simp [hasSubList, ih.mpr ⟨ps, post, h2⟩]

/-- Characterization of `strContains`, matching the documented semantics of
Python`s `in` on strings: raw contiguous substring containment. -/
theorem strContains_iff (haystack needle : String) :
    strContains haystack needle = true ↔
      ∃ pre post : String, haystack = pre ++ needle ++ post := by
  unfold strContains
  rw [hasSubList_iff]
  constructor
  · rintro ⟨p, s, h⟩
    exact ⟨⟨p⟩, ⟨s⟩, String.ext (by simpa [String.data_append] using h)⟩
  · rintro ⟨p, s, h⟩
    exact ⟨p.data, s.data, by rw [h]; simp [String.data_append]⟩

/-- Substring containment is transitive. -/
theorem strContains_trans {a b c : String} (h1 : strContains a b = true)
    (h2 : strContains b c = true) : strContains a c = true := by
  rw [strContains_iff] at h1 h2 ⊢
  obtain ⟨p, s, rfl⟩ := h1
  obtain ⟨p', s', rfl⟩ := h2
  exact ⟨p ++ p', s' ++ s, by simp [String.append_assoc]⟩

/-- Any mood string outside the seven selectable labels resolves to the
"Not specified" fallback message (this covers the sentinel itself). -/
theorem baseMessage_of_not_selectable {mood : String} (h : mood ∉ mood_options) :
    baseMessage mood = notSpecifiedMsg := by
  simp only [mood_options, List.mem_cons, List.not_mem_nil, or_false, not_or] at h
  obtain ⟨h1, h2, h3, h4, h5, h6, h7⟩ := h
  by_cases h8 : mood = "Not specified"
  · subst h8; rfl
  · unfold baseMessage mood_based
    simp [List.lookup, beq_eq_false_iff_ne.mpr h1, beq_eq_false_iff_ne.mpr h2,
          beq_eq_false_iff_ne.mpr h3, beq_eq_false_iff_ne.mpr h4,
          beq_eq_false_iff_ne.mpr h5, beq_eq_false_iff_ne.mpr h6,
          beq_eq_false_iff_ne.mpr h7, beq_eq_false_iff_ne.mpr h8]

/-- Normal form of the advice function: the base message followed by the
four optional keyword suffixes in declaration order. -/
theorem generate_advice_eq (mood text : String) :
    generate_advice mood text =
      baseMessage mood ++ tiredOpt text ++ overwhelmedOpt text
        ++ aloneOpt text ++ proudOpt text := by
  unfold generate_advice tiredOpt overwhelmedOpt aloneOpt proudOpt
  cases h1 : tiredHit (toLowerStr text) <;>
    cases h2 : overwhelmedHit (toLowerStr text) <;>
      cases h3 : aloneHit (toLowerStr text) <;>
        cases h4 : proudHit (toLowerStr text) <;>
          simp [h1, h2, h3, h4, String.append_empty]

/-- No single exposed operation removes or rewrites existing rows: the old
row list is always a prefix of the new one. -/
theorem applyOp_entries_keep (db : JournalDatabase) (op : StoreOp) :
    db.entries <+: (applyOp db op).entries := by
  cases op with
  | append d m a1 a2 a3 adv => exact List.prefix_append _ _
  | listSummaries => exact List.prefix_refl _
  | get i => exact List.prefix_refl _
  | createTable => exact List.prefix_refl _

/-- Rows survive any further sequence of operations unchanged. -/
theorem foldl_entries_keep (more : List StoreOp) (db : JournalDatabase) :
    db.entries <+: (more.foldl applyOp db).entries := by
  induction more generalizing db with
  | nil => exact List.prefix_refl _
  | cons op rest ih =>
    exact (applyOp_entries_keep db op).trans (ih (applyOp db op))

/-- The fresh database is well formed. -/
theorem WF_init : WF JournalDatabase.init :=
  ⟨List.Pairwise.nil, by intro e he; simp [JournalDatabase.init] at he⟩

/-- Every exposed operation preserves well-formedness. -/
theorem WF_applyOp {db : JournalDatabase} (h : WF db) (op : StoreOp) :
    WF (applyOp db op) := by
  obtain ⟨hpw, hle⟩ := h
  cases op with
  | append d m a1 a2 a3 adv =>
    constructor
    · show (db.entries ++ [_]).Pairwise _
      rw [List.pairwise_append]
      refine ⟨hpw, List.pairwise_singleton _ _, ?_⟩
      intro a ha b hb
      rw [List.mem_singleton] at hb
      subst hb
      exact Nat.lt_succ_of_le (hle a ha)
    · intro e he
      rw [show (applyOp db (.append d m a1 a2 a3 adv)).entries =
            db.entries ++ [⟨db.seq + 1, d, m, a1, a2, a3, adv⟩] from rfl,
          List.mem_append] at he
      rcases he with he | he
      · exact Nat.le_succ_of_le (hle e he)
      · rw [List.mem_singleton] at he
        subst he
        exact Nat.le_refl _
  | listSummaries => exact ⟨hpw, hle⟩
  | get i => exact ⟨hpw, hle⟩
  | createTable => exact ⟨hpw, hle⟩

/-- Well-formedness is preserved by any sequence of operations. -/
theorem WF_foldl {db : JournalDatabase} (h : WF db) (more : List StoreOp) :
    WF (more.foldl applyOp db) := by
  induction more generalizing db with
  | nil => exact h
  | cons op rest ih => exact ih (WF_applyOp h op)

/-- Every reachable store state is well formed. -/
theorem WF_runOps (ops : List StoreOp) : WF (runOps ops) :=
  WF_foldl WF_init ops

/-- Looking up the id assigned by an insert on a state whose row ids do not
exceed the sequence value finds exactly the new row. -/
theorem get_entry_fresh (db : JournalDatabase)
    (h : ∀ e ∈ db.entries, e.id ≤ db.seq) (d m a1 a2 a3 adv : String) :
    ((db.add_entry d m a1 a2 a3 adv).1).get_entry (db.seq + 1) =
      some ⟨db.seq + 1, d, m, a1, a2, a3, adv⟩ := by
  show (db.entries ++ [_]).find? _ = _
  rw [List.find?_append]
  have hnone : db.entries.find? (fun e => e.id == db.seq + 1) = none := by
    rw [List.find?_eq_none]
    intro e he
    simp only [beq_iff_eq]
    exact Nat.ne_of_lt (Nat.lt_succ_of_le (h e he))
  rw [hnone]
  simp [List.find?]

/-- Claim C1 counterexample: the claim says `append` returns the newly
generated identifier.  On a fresh store the first insert generates id 1,
but `add_entry` has no return statement: it returns `None`, not the id. -/
theorem add_entry_returns_none :
    (JournalDatabase.init.add_entry "2024-01-01" "Happy" "a" "b" "c" "adv").2 = none ∧
    (JournalDatabase.init.add_entry "2024-01-01" "Happy" "a" "b" "c" "adv").2 ≠ some 1 :=
  ⟨rfl, by decide⟩

/-- Claim C1 (amended): for every reachable store state and all six
argument values, `append` assigns a newly generated unique identifier to
the inserted record while itself returning `None`; that identifier belongs
to no previously stored record, and a subsequent `get` on it returns a
record whose date, mood, three answers and advice equal the values passed
in. -/
theorem append_assigns_fresh_id_round_trip (ops : List StoreOp)
    (d m a1 a2 a3 adv : String) :
    ((runOps ops).add_entry d m a1 a2 a3 adv).2 = none ∧
    ∃ id : Nat,
      id ∉ (runOps ops).entries.map Entry.id ∧
      ((runOps ops).add_entry d m a1 a2 a3 adv).1.get_entry id =
        some { id := id, date := d, mood := m, q1 := a1, q2 := a2, q3 := a3,
               advice := adv } := by
  obtain ⟨hpw, hle⟩ := WF_runOps ops
  refine ⟨rfl, (runOps ops).seq + 1, ?_, get_entry_fresh _ hle d m a1 a2 a3 adv⟩
  intro hmem
  rw [List.mem_map] at hmem
  obtain ⟨e, he, heq⟩ := hmem
  exact absurd heq (Nat.ne_of_lt (Nat.lt_succ_of_le (hle e he)))

set_option maxRecDepth 8192 in
/-- Claim C2: the supplementary paragraphs always appear in the fixed
declaration order tiredness, overwhelm, loneliness, pride, regardless of
keyword order in the text; in particular for mood "Sad" and text "I felt
tired and alone today" the output is the Sad base message, the tiredness
paragraph, then the loneliness paragraph (each paragraph carrying its
blank-line separator), with overwhelm and pride absent. -/
theorem advice_fixed_order :
    (∀ mood text : String,
      generate_advice mood text =
        baseMessage mood ++ tiredOpt text ++ overwhelmedOpt text
          ++ aloneOpt text ++ proudOpt text) ∧
    generate_advice "Sad" "I felt tired and alone today" =
      sadMsg ++ tiredPara ++ alonePara :=
  ⟨generate_advice_eq, by decide⟩

/-- Claim C3: for each of the seven mood labels and the "Not specified"
sentinel, and every text, the advice string starts with exactly the base
message stored for that mood in the lookup table. -/
theorem advice_starts_with_base (mood : String) (h : mood ∈ allMoodKeys)
    (text : String) :
    ∃ msg, List.lookup mood mood_based = some msg ∧
      ∃ rest, generate_advice mood text = msg ++ rest := by
  have hbase : ∀ m : String, generate_advice m text =
      baseMessage m ++ (tiredOpt text ++ (overwhelmedOpt text
        ++ (aloneOpt text ++ proudOpt text))) := by
    intro m
    rw [generate_advice_eq]
    simp [String.append_assoc]
  simp only [allMoodKeys, mood_options, List.mem_append, List.mem_cons,
    List.mem_singleton, List.not_mem_nil, or_false] at h
  rcases h with ⟨rfl | rfl | rfl | rfl | rfl | rfl | rfl⟩ | rfl <;>
    exact ⟨_, rfl, _, hbase _⟩

/-- Claim C3 witness: instantiated at mood "Sad" and text "hello". -/
theorem advice_starts_with_base_witness :
    ∃ msg, List.lookup "Sad" mood_based = some msg ∧
      ∃ rest, generate_advice "Sad" "hello" = msg ++ rest :=
  advice_starts_with_base "Sad" (by decide) "hello"

/-- Claim C4: when the lowercased text fires none of the four keyword
groups (the empty text in particular), the advice equals the base message
alone, with no appended suffix. -/
theorem advice_no_keywords (mood text : String)
    (h1 : tiredHit (toLowerStr text) = false)
    (h2 : overwhelmedHit (toLowerStr text) = false)
    (h3 : aloneHit (toLowerStr text) = false)
    (h4 : proudHit (toLowerStr text) = false) :
    generate_advice mood text = baseMessage mood := by
  rw [generate_advice_eq]
  unfold tiredOpt overwhelmedOpt aloneOpt proudOpt
  simp [h1, h2, h3, h4, String.append_empty]

/-- Claim C4 witness: instantiated at mood "Stressed" and the empty
text. -/
theorem advice_no_keywords_witness :
    generate_advice "Stressed" "" = baseMessage "Stressed" :=
  advice_no_keywords "Stressed" "" (by decide) (by decide) (by decide) (by decide)

/-- Claim C5: any mood string outside the seven case-sensitively matched
labels (the "Not specified" sentinel included) resolves to the designated
fallback base message — the lookup is total — and the keyword augmentation
then proceeds exactly as for the sentinel mood. -/
theorem advice_fallback (mood : String) (h : mood ∉ mood_options) (text : String) :
    baseMessage mood = notSpecifiedMsg ∧
    generate_advice mood text = generate_advice "Not specified" text := by
  have hb := baseMessage_of_not_selectable h
  refine ⟨hb, ?_⟩
  rw [generate_advice_eq, generate_advice_eq, hb,
    show baseMessage "Not specified" = notSpecifiedMsg from rfl]

/-- Claim C5 witness: instantiated at the unrecognized mood "Confused" and
text "so tired". -/
theorem advice_fallback_witness :
    baseMessage "Confused" = notSpecifiedMsg ∧
    generate_advice "Confused" "so tired" = generate_advice "Not specified" "so tired" :=
  advice_fallback "Confused" (by decide) "so tired"

set_option maxRecDepth 8192 in
/-- Claim C6: `list_summaries` yields exactly one `(id, date, mood)` tuple
per stored record (answers and advice omitted), ordered by id descending;
on the empty store it yields the empty list, and after inserting records
A, B, C in that order it yields C, B, A. -/
theorem list_summaries_spec :
    (∀ db : JournalDatabase,
      (db.get_all_entries).Perm (db.entries.map fun e => (e.id, e.date, e.mood)) ∧
      List.Sorted idDesc db.get_all_entries) ∧
    JournalDatabase.init.get_all_entries = [] ∧
    ((((JournalDatabase.init.add_entry "dA" "mA" "a1" "a2" "a3" "vA").1.add_entry
        "dB" "mB" "b1" "b2" "b3" "vB").1.add_entry
        "dC" "mC" "c1" "c2" "c3" "vC").1.get_all_entries =
      [(3, "dC", "mC"), (2, "dB", "mB"), (1, "dA", "mA")]) := by
  refine ⟨fun db => ⟨List.perm_insertionSort idDesc _,
    List.sorted_insertionSort idDesc _⟩, rfl, by decide⟩

/-- Claim C7: `get` on an identifier never produced by an append on the
reached store returns the explicit absent signal `none` (the embedded
lookup is a total function: no error is possible). -/
theorem get_entry_missing_none (ops : List StoreOp) (entry_id : Nat)
    (h : entry_id ∉ (runOps ops).entries.map Entry.id) :
    (runOps ops).get_entry entry_id = none := by
  show (runOps ops).entries.find? _ = none
  rw [List.find?_eq_none]
  intro e he
  simp only [beq_iff_eq]
  intro heq
  exact h (List.mem_map.mpr ⟨e, he, heq⟩)

/-- Claim C7 witness: looking up id 5 on the empty store yields `none`. -/
theorem get_entry_missing_none_witness :
    (runOps []).get_entry 5 = none :=
  get_entry_missing_none [] 5 (by decide)

/-- Claim C8: after any sequence of exposed operations every previously
appended record is still present with all fields unchanged (the old row
list is a prefix of the new one), no single operation updates or deletes a
record, and the stored ids strictly increase in creation order (hence are
pairwise distinct). -/
theorem store_append_only :
    (∀ (db : JournalDatabase) (op : StoreOp),
      db.entries <+: (applyOp db op).entries) ∧
    (∀ ops more : List StoreOp,
      (runOps ops).entries <+: (runOps (ops ++ more)).entries) ∧
    (∀ ops : List StoreOp,
      (runOps ops).entries.Pairwise fun a b => a.id < b.id) := by
  refine ⟨applyOp_entries_keep, ?_, fun ops => (WF_runOps ops).1⟩
  intro ops more
  show (runOps ops).entries <+:
    ((ops ++ more).foldl applyOp JournalDatabase.init).entries
  rw [List.foldl_append]
  exact foldl_entries_keep more (runOps ops)

/-- Claim C9: keyword detection is raw case-insensitive substring
containment — `strContains` holds exactly when the needle occurs
contiguously anywhere in the haystack, even inside a longer word — so any
text whose lowercasing contains "retired" triggers the tiredness
paragraph. -/
theorem keyword_substring_semantics :
    (∀ haystack needle : String,
      strContains haystack needle = true ↔
        ∃ pre post : String, haystack = pre ++ needle ++ post) ∧
    (∀ mood text : String, strContains (toLowerStr text) "retired" = true →
      ∃ rest : String,
        generate_advice mood text = baseMessage mood ++ tiredPara ++ rest) := by
  refine ⟨strContains_iff, ?_⟩
  intro mood text h
  have ht : strContains (toLowerStr text) "tired" = true :=
    strContains_trans h (by decide)
  have hhit : tiredHit (toLowerStr text) = true := by
    unfold tiredHit
    rw [ht]
    rfl
  refine ⟨overwhelmedOpt text ++ aloneOpt text ++ proudOpt text, ?_⟩
  rw [generate_advice_eq]
  unfold tiredOpt
  rw [hhit]
  simp [String.append_assoc]

/-- Claim C9 witness: mood "Happy" with text "I retired early", whose
lowercasing contains "tired" only inside the word "retired". -/
theorem keyword_substring_semantics_witness :
    ∃ rest : String,
      generate_advice "Happy" "I retired early" =
        baseMessage "Happy" ++ tiredPara ++ rest :=
  keyword_substring_semantics.2 "Happy" "I retired early" (by decide)

set_option maxRecDepth 8192 in
/-- Claim C10: each supplementary paragraph occurs at most once in the
advice — the output is exactly the base message followed by, for each
matching group in order, one copy of its paragraph (each paragraph opening
with one blank line) — even when both alternative keywords of a group
occur, as in "tired and exhausted". -/
theorem paragraphs_at_most_once :
    (∀ mood text : String, ∃ t o l p : String,
      generate_advice mood text = baseMessage mood ++ t ++ o ++ l ++ p ∧
      (t = "" ∨ t = tiredPara) ∧ (o = "" ∨ o = overwhelmedPara) ∧
      (l = "" ∨ l = alonePara) ∧ (p = "" ∨ p = proudPara)) ∧
    tiredPara.data.take 2 = ['\n', '\n'] ∧
    overwhelmedPara.data.take 2 = ['\n', '\n'] ∧
    alonePara.data.take 2 = ['\n', '\n'] ∧
    proudPara.data.take 2 = ['\n', '\n'] ∧
    generate_advice "Neutral" "tired and exhausted" = neutralMsg ++ tiredPara := by
  refine ⟨?_, by decide, by decide, by decide, by decide, by decide⟩
  intro mood text
  refine ⟨tiredOpt text, overwhelmedOpt text, aloneOpt text, proudOpt text,
    generate_advice_eq mood text, ?_, ?_, ?_, ?_⟩
  · unfold tiredOpt
    cases h : tiredHit (toLowerStr text) <;> simp [h]
  · unfold overwhelmedOpt
    cases h : overwhelmedHit (toLowerStr text) <;> simp [h]
  · unfold aloneOpt
    cases h : aloneHit (toLowerStr text) <;> simp [h]
  · unfold proudOpt
    cases h : proudHit (toLowerStr text) <;> simp [h]
